import Mathlib

/-!
Verification development for a structured logging facade built on top of an
external high-performance logging engine (zap).  The facade selects one of two
encoder profiles from an environment string, resolves a textual log level to a
threshold, permanently attaches service-identity fields, supports contextual
derivation of loggers with extra fields, and manages a lazily-initialized
process-wide singleton.

The facade's own code is embedded faithfully from `logger.go`.  The external
engine (zap) is not part of the repository; the small slice of its behavior
the facade depends on (fallible build, field accumulation via `With`,
level-gated emission) is modelled explicitly, with build failure represented
as an explicit `engineErr` input, since whether the engine build fails is an
environmental fact the facade merely propagates.
-/

namespace LoggerGath

/-- The typed value of a structured field (zap `Field` values: the facade and
its documentation use strings, numbers, booleans, errors and durations). -/
inductive FieldValue where
  | str : String → FieldValue
  | int : Int → FieldValue
  | bool : Bool → FieldValue
  | err : String → FieldValue
  | duration : Nat → FieldValue
deriving DecidableEq

/-- A structured key/value field attached to a log entry (`zap.Field`). -/
structure Field where
  key : String
  value : FieldValue
deriving DecidableEq

/-- The engine's internal severity levels (`zapcore.Level`). -/
inductive ZapLevel where
  | debug
  | info
  | warn
  | error
  | fatal
deriving DecidableEq

/-- Numeric value of a `zapcore.Level` (`DebugLevel = -1`, `InfoLevel = 0`,
`WarnLevel = 1`, `ErrorLevel = 2`, `FatalLevel = 5`). -/
def ZapLevel.toInt : ZapLevel → Int
  | .debug => -1
  | .info => 0
  | .warn => 1
  | .error => 2
  | .fatal => 5

/-- A level `lvl` passes the minimum-level gate with threshold `threshold`
when `threshold <= lvl` in the engine's numeric order. -/
def levelEnabled (threshold lvl : ZapLevel) : Bool :=
  decide (threshold.toInt ≤ lvl.toInt)

/-- Level renderers used by the two encoder profiles
(`zapcore.LowercaseLevelEncoder`, `zapcore.CapitalColorLevelEncoder`, ...). -/
inductive LevelEncoder where
  | lowercase
  | capital
  | lowercaseColor
  | capitalColor
deriving DecidableEq

/-- Time renderers (`zapcore.ISO8601TimeEncoder`, ...). -/
inductive TimeEncoder where
  | iso8601
  | epoch
  | rfc3339
deriving DecidableEq

/-- Duration renderers (`zapcore.SecondsDurationEncoder`,
`zapcore.StringDurationEncoder`, ...). -/
inductive DurationEncoder where
  | seconds
  | stringly
  | nanos
deriving DecidableEq

/-- Caller-location renderers (`zapcore.ShortCallerEncoder`, ...). -/
inductive CallerEncoder where
  | short
  | full
deriving DecidableEq

/-- `zapcore.OmitKey`: the key value that removes a slot from the output. -/
def OmitKey : String := ""

/-- `zapcore.DefaultLineEnding`. -/
def DefaultLineEnding : String := "\n"

/-- `zapcore.EncoderConfig`: the field keys and renderers of one profile. -/
structure EncoderConfig where
  TimeKey : String
  LevelKey : String
  NameKey : String
  CallerKey : String
  FunctionKey : String
  MessageKey : String
  StacktraceKey : String
  LineEnding : String
  EncodeLevel : LevelEncoder
  EncodeTime : TimeEncoder
  EncodeDuration : DurationEncoder
  EncodeCaller : CallerEncoder
deriving DecidableEq

/-- `zap.Config` as the facade populates it. -/
structure ZapConfig where
  Level : ZapLevel
  Development : Bool
  Encoding : String
  encoderConfig : EncoderConfig
  OutputPaths : List String
  ErrorOutputPaths : List String
deriving DecidableEq

/-- The engine instance a successful build yields: its configuration, the
fields accumulated so far via `With`, and the two build options the facade
passes (`AddCallerSkip`, `AddStacktrace`). -/
structure ZapLogger where
  config : ZapConfig
  fields : List Field
  callerSkip : Nat
  stacktraceFrom : ZapLevel
deriving DecidableEq

/-- `zap.Logger.With`: returns a child engine instance with the supplied
fields appended after the accumulated ones; the receiver is unchanged. -/
def ZapLogger.With (zl : ZapLogger) (fs : List Field) : ZapLogger :=
  { zl with fields := zl.fields ++ fs }

/-- The engine build (`zap.Config.Build`).  Whether the underlying engine can
be initialized (e.g. whether the output sink is valid) is an environmental
fact outside the facade, passed in as `engineErr`: `some msg` means the build
fails with message `msg`, `none` means it succeeds and yields the engine
instance for the given configuration and options, with no fields attached. -/
def zapBuild (engineErr : Option String) (cfg : ZapConfig)
    (callerSkip : Nat) (stacktraceFrom : ZapLevel) : Except String ZapLogger :=
  match engineErr with
  | some e => .error e
  | none => .ok ⟨cfg, [], callerSkip, stacktraceFrom⟩

/-- `LogLevel`: the facade's level type is a string. -/
abbrev LogLevel := String

/-- `LevelDebug`. -/
def LevelDebug : LogLevel := "DEBUG"

/-- `LevelInfo`. -/
def LevelInfo : LogLevel := "INFO"

/-- `LevelWarn`. -/
def LevelWarn : LogLevel := "WARN"

/-- `LevelError`. -/
def LevelError : LogLevel := "ERROR"

/-- `Config`: the facade's configuration record. -/
structure Config where
  Level : LogLevel
  Environment : String
  ServiceName : String
deriving DecidableEq

/-- `strings.ToUpper` from the Go standard library, on the ASCII-relevant
part: uppercase every character of the string.  (The four level names are
pure ASCII, so Unicode-special case mappings cannot produce any of `DEBUG`,
`WARN` or `ERROR`, and a string they map to `INFO` resolves to `InfoLevel`
either way, through the match or through the default.) -/
def toUpperStr (s : String) : String :=
  ⟨s.data.map Char.toUpper⟩

/-- The level-resolution switch at the top of `New`: uppercase the configured
level string and compare with the four level constants; anything else falls
through to `InfoLevel`. -/
def resolveZapLevel (s : LogLevel) : ZapLevel :=
  let u := toUpperStr s
  if u = LevelDebug then .debug
  else if u = LevelInfo then .info
  else if u = LevelWarn then .warn
  else if u = LevelError then .error
  else .info

/-- `productionEncoderConfig`: encoder settings for production JSON logs. -/
def productionEncoderConfig : EncoderConfig :=
  { TimeKey := "timestamp"
    LevelKey := "level"
    NameKey := "logger"
    CallerKey := "caller"
    FunctionKey := OmitKey
    MessageKey := "message"
    StacktraceKey := "stacktrace"
    LineEnding := DefaultLineEnding
    EncodeLevel := .lowercase
    EncodeTime := .iso8601
    EncodeDuration := .seconds
    EncodeCaller := .short }

/-- `developmentEncoderConfig`: encoder settings for development console
logs. -/
def developmentEncoderConfig : EncoderConfig :=
  { TimeKey := "T"
    LevelKey := "L"
    NameKey := "N"
    CallerKey := "C"
    FunctionKey := OmitKey
    MessageKey := "M"
    StacktraceKey := "S"
    LineEnding := DefaultLineEnding
    EncodeLevel := .capitalColor
    EncodeTime := .iso8601
    EncodeDuration := .stringly
    EncodeCaller := .short }

/-- The `zap.Config` value `New` builds: the resolved level plus either the
production (JSON) block or the development (console) block, selected by an
exact comparison of `cfg.Environment` with "production". -/
def newZapConfig (cfg : Config) : ZapConfig :=
  let zapLevel := resolveZapLevel cfg.Level
  if cfg.Environment = "production" then
    { Level := zapLevel
      Development := false
      Encoding := "json"
      encoderConfig := productionEncoderConfig
      OutputPaths := ["stdout"]
      ErrorOutputPaths := ["stderr"] }
  else
    { Level := zapLevel
      Development := true
      Encoding := "console"
      encoderConfig := developmentEncoderConfig
      OutputPaths := ["stdout"]
      ErrorOutputPaths := ["stderr"] }

/-- `Logger`: the facade's wrapper around the engine instance. -/
structure Logger where
  toZap : ZapLogger
deriving DecidableEq

/-- `New`: build the engine with the selected configuration, options
`AddCallerSkip(1)` and `AddStacktrace(ErrorLevel)`, propagate a build failure
wrapped in "failed to build logger: ", and on success permanently attach the
`service` and `environment` fields. -/
def New (engineErr : Option String) (cfg : Config) : Except String Logger :=
  match zapBuild engineErr (newZapConfig cfg) 1 .error with
  | .error e => .error ("failed to build logger: " ++ e)
  | .ok zl =>
    .ok ⟨zl.With [⟨"service", .str cfg.ServiceName⟩,
                  ⟨"environment", .str cfg.Environment⟩]⟩

/-- `Logger.WithContext`: a derived logger enriched with additional fields,
delegating to the engine's `With`. -/
def Logger.WithContext (l : Logger) (fields : List Field) : Logger :=
  ⟨l.toZap.With fields⟩

/-- A chain of contextual derivations applied in order. -/
def deriveChain (l : Logger) (chain : List (List Field)) : Logger :=
  chain.foldl (fun acc fs => acc.WithContext fs) l

/-- One emitted log entry: severity, message, the fields in output order, and
whether a stack trace was captured. -/
structure Entry where
  level : ZapLevel
  message : String
  fields : List Field
  stacktrace : Bool
deriving DecidableEq

/-- A leveled emission call on a logger (the engine behavior behind the
facade's `Debug`/`Info`/`Warn`/`Error` methods): if the call's level passes
the minimum-level gate, one entry is produced whose fields are the logger's
accumulated fields followed by the call-site fields, with a stack trace
captured from the configured level upward; otherwise no output is produced. -/
def Logger.Log (l : Logger) (lvl : ZapLevel) (msg : String)
    (fs : List Field) : Option Entry :=
  if levelEnabled l.toZap.config.Level lvl then
    some ⟨lvl, msg, l.toZap.fields ++ fs,
          levelEnabled l.toZap.stacktraceFrom lvl⟩
  else
    none

/-- The global singleton reference (`globalLogger`), `none` when the pointer
is nil. -/
abbrev GlobalState := Option Logger

/-- `InitGlobal`: build a logger from `cfg`; on failure return the error and
leave the global reference untouched; on success install the new logger,
replacing any previous value. -/
def InitGlobal (engineErr : Option String) (cfg : Config)
    (g : GlobalState) : Option String × GlobalState :=
  match New engineErr cfg with
  | .error err => (some err, g)
  | .ok l => (none, some l)

/-- The default configuration `Get` uses when the global reference is nil. -/
def getDefaultConfig : Config :=
  { Level := LevelInfo
    Environment := "development"
    ServiceName := "gath-stack" }

/-- `Get`: return the installed global logger; if none is installed, build
one from the default configuration, discard any build error, store the result
(nil on failure) in the global reference, and return it. -/
def Get (engineErr : Option String) (g : GlobalState) :
    Option Logger × GlobalState :=
  match g with
  | some l => (some l, some l)
  | none =>
    match New engineErr getDefaultConfig with
    | .ok l => (some l, some l)
    | .error _ => (none, none)

/-- `n + 1` successive calls to `Get`, threading the global state. -/
def GetN (engineErr : Option String) (g : GlobalState) :
    Nat → Option Logger × GlobalState
  | 0 => Get engineErr g
  | n + 1 => Get engineErr (GetN engineErr g n).2

/-- `os.Getenv`: the process environment maps names to optional values; an
unset variable reads as the empty string. -/
def osGetenv (env : String → Option String) (key : String) : String :=
  (env key).getD ""

/-- `getEnv`: an environment variable's value when it is non-empty, the
default otherwise. -/
def getEnv (env : String → Option String) (key defaultValue : String) :
    String :=
  let value := osGetenv env key
  if value ≠ "" then value else defaultValue

/-- `FromEnv`: build a configuration from `LOG_LEVEL`, `APP_ENV` and
`APP_NAME` with defaults `INFO`, `development` and `gath-stack`. -/
def FromEnv (env : String → Option String) : Config :=
  { Level := getEnv env "LOG_LEVEL" "INFO"
    Environment := getEnv env "APP_ENV" "development"
    ServiceName := getEnv env "APP_NAME" "gath-stack" }

/-- Spec-side restatement of level resolution: a case-insensitive lookup of
the configured string in the table of the four level names, defaulting to
`InfoLevel` when no name matches. -/
def specLevelResolve (s : String) : ZapLevel :=
  (List.lookup (toUpperStr s)
    [(LevelDebug, ZapLevel.debug), (LevelInfo, ZapLevel.info),
     (LevelWarn, ZapLevel.warn), (LevelError, ZapLevel.error)]).getD
    ZapLevel.info

/-- Once a logger is installed in the global reference, every further `Get`
returns it and leaves the reference unchanged. -/
theorem getN_installed (e : Option String) (l : Logger) :
    ∀ n, GetN e (some l) n = (some l, some l) := by
  intro n
  induction n with
  | zero => rfl
  | succ n ih => simp [GetN, ih, Get]

/-- Claim C1: the constructor selects the encoder profile solely by an exact,
case-sensitive comparison of `Config.Environment` with "production": when
equal it produces the structured/JSON profile with field keys `timestamp`,
`level`, `logger`, `caller`, `message`, `stacktrace`; for every other value
it produces the console profile with field keys `T`, `L`, `N`, `C`, `M`,
`S`; both profiles omit the function-name key. -/
theorem encoder_profile_by_environment (cfg : Config) :
    (newZapConfig cfg).encoderConfig =
      (if cfg.Environment = "production" then productionEncoderConfig
       else developmentEncoderConfig) ∧
    (newZapConfig cfg).Encoding =
      (if cfg.Environment = "production" then "json" else "console") ∧
    productionEncoderConfig.TimeKey = "timestamp" ∧
    productionEncoderConfig.LevelKey = "level" ∧
    productionEncoderConfig.NameKey = "logger" ∧
    productionEncoderConfig.CallerKey = "caller" ∧
    productionEncoderConfig.MessageKey = "message" ∧
    productionEncoderConfig.StacktraceKey = "stacktrace" ∧
    productionEncoderConfig.FunctionKey = OmitKey ∧
    developmentEncoderConfig.TimeKey = "T" ∧
    developmentEncoderConfig.LevelKey = "L" ∧
    developmentEncoderConfig.NameKey = "N" ∧
    developmentEncoderConfig.CallerKey = "C" ∧
    developmentEncoderConfig.MessageKey = "M" ∧
    developmentEncoderConfig.StacktraceKey = "S" ∧
    developmentEncoderConfig.FunctionKey = OmitKey := by
  refine ⟨?_, ?_, rfl, rfl, rfl, rfl, rfl, rfl, rfl,
          rfl, rfl, rfl, rfl, rfl, rfl, rfl⟩ <;>
    by_cases h : cfg.Environment = "production" <;>
      simp [newZapConfig, h]

/-- Claim C2: level resolution matches the configured string
case-insensitively against the four level names, yields the corresponding
threshold on a match and `InfoLevel` otherwise, and — being a total function
into `ZapLevel` — never returns an error. -/
theorem level_resolution_matches_table (s : LogLevel) :
    resolveZapLevel s = specLevelResolve s := by
  unfold resolveZapLevel specLevelResolve
  by_cases h1 : toUpperStr s = LevelDebug
  · simp [List.lookup, h1, LevelDebug]
  by_cases h2 : toUpperStr s = LevelInfo
  · simp [List.lookup, h1, h2, LevelDebug, LevelInfo]
  by_cases h3 : toUpperStr s = LevelWarn
  · simp [List.lookup, h1, h2, h3, LevelDebug, LevelInfo, LevelWarn]
  by_cases h4 : toUpperStr s = LevelError
  · simp [List.lookup, h1, h2, h3, h4,
      LevelDebug, LevelInfo, LevelWarn, LevelError]
  have b1 : (toUpperStr s == "DEBUG") = false := beq_eq_false_iff_ne.mpr h1
  have b2 : (toUpperStr s == "INFO") = false := beq_eq_false_iff_ne.mpr h2
  have b3 : (toUpperStr s == "WARN") = false := beq_eq_false_iff_ne.mpr h3
  have b4 : (toUpperStr s == "ERROR") = false := beq_eq_false_iff_ne.mpr h4
  have g1 : ¬toUpperStr s = "DEBUG" := h1
  have g2 : ¬toUpperStr s = "INFO" := h2
  have g3 : ¬toUpperStr s = "WARN" := h3
  have g4 : ¬toUpperStr s = "ERROR" := h4
  simp [List.lookup, b1, b2, b3, b4, g1, g2, g3, g4,
    LevelDebug, LevelInfo, LevelWarn, LevelError]

/-- A successful construction yields exactly the engine instance for the
selected configuration and build options, carrying the two service-identity
fields. -/
theorem new_ok_toZap (e? : Option String) (cfg : Config) (l : Logger)
    (h : New e? cfg = .ok l) :
    l.toZap = ⟨newZapConfig cfg,
      [⟨"service", .str cfg.ServiceName⟩,
       ⟨"environment", .str cfg.Environment⟩], 1, .error⟩ := by
  cases e? with
  | some m => simp [New, zapBuild] at h
  | none =>
    simp only [New, zapBuild, ZapLogger.With, List.nil_append,
      Except.ok.injEq] at h
    rw [← h]

/-- Both branches of the configuration selection install the resolved level
threshold. -/
theorem newZapConfig_Level (cfg : Config) :
    (newZapConfig cfg).Level = resolveZapLevel cfg.Level := by
  by_cases h : cfg.Environment = "production" <;> simp [newZapConfig, h]

/-- An emission that produced an entry put the logger's accumulated fields
first, followed by the call-site fields. -/
theorem log_some_fields (l : Logger) (lvl : ZapLevel) (msg : String)
    (fs : List Field) (ent : Entry) (h : l.Log lvl msg fs = some ent) :
    ent.fields = l.toZap.fields ++ fs := by
  unfold Logger.Log at h
  split at h
  · cases h
    rfl
  · cases h

/-- Contextual derivation only ever appends fields, so a field of the base
logger stays present through any chain of derivations. -/
theorem deriveChain_mem (chain : List (List Field)) :
    ∀ (l : Logger) (f : Field), f ∈ l.toZap.fields →
      f ∈ (deriveChain l chain).toZap.fields := by
  induction chain with
  | nil =>
    intro l f hf
    exact hf
  | cons fs rest ih =>
    intro l f hf
    have hstep : f ∈ (l.WithContext fs).toZap.fields := by
      simp only [Logger.WithContext, ZapLogger.With, List.mem_append]
      exact Or.inl hf
    simpa [deriveChain] using ih (l.WithContext fs) f hstep

/-- Claim C3: every entry emitted by a logger constructed with
`ServiceName = S` and `Environment = E`, or by any chain of loggers derived
from it, contains the field `service = S` and the field `environment = E`
(the raw configured string), no matter how many contextual derivations
occurred. -/
theorem service_environment_in_every_entry
    (e? : Option String) (cfg : Config) (l : Logger)
    (chain : List (List Field)) (lvl : ZapLevel) (msg : String)
    (cf : List Field) (ent : Entry)
    (hnew : New e? cfg = .ok l)
    (hlog : (deriveChain l chain).Log lvl msg cf = some ent) :
    (⟨"service", .str cfg.ServiceName⟩ : Field) ∈ ent.fields ∧
    (⟨"environment", .str cfg.Environment⟩ : Field) ∈ ent.fields := by
  have hz := new_ok_toZap e? cfg l hnew
  have hsvc : (⟨"service", .str cfg.ServiceName⟩ : Field) ∈ l.toZap.fields := by
    rw [hz]
    exact List.mem_cons_self _ _
  have henv :
      (⟨"environment", .str cfg.Environment⟩ : Field) ∈ l.toZap.fields := by
    rw [hz]
    exact List.mem_cons_of_mem _ (List.mem_cons_self _ _)
  have hf := log_some_fields _ _ _ _ _ hlog
  rw [hf]
  exact ⟨List.mem_append_left _ (deriveChain_mem chain l _ hsvc),
         List.mem_append_left _ (deriveChain_mem chain l _ henv)⟩

/-- Concrete run of claim C3's theorem: a production logger derived twice
still emits its `service` and `environment` fields. -/
theorem service_environment_in_every_entry_witness :
    ∃ (l : Logger) (ent : Entry),
      New none ⟨"INFO", "production", "svc"⟩ = Except.ok l ∧
      (deriveChain l [[⟨"component", .str "auth"⟩],
                      [⟨"request_id", .str "req-42a"⟩]]).Log
          .info "started" [] = some ent ∧
      (⟨"service", .str "svc"⟩ : Field) ∈ ent.fields ∧
      (⟨"environment", .str "production"⟩ : Field) ∈ ent.fields := by
  refine ⟨⟨⟨newZapConfig ⟨"INFO", "production", "svc"⟩,
      [⟨"service", .str "svc"⟩, ⟨"environment", .str "production"⟩],
      1, .error⟩⟩,
    ⟨.info, "started",
      [⟨"service", .str "svc"⟩, ⟨"environment", .str "production"⟩,
       ⟨"component", .str "auth"⟩, ⟨"request_id", .str "req-42a"⟩],
      false⟩, rfl, by decide, ?_, ?_⟩
  · exact (service_environment_in_every_entry none ⟨"INFO", "production", "svc"⟩
      ⟨⟨newZapConfig ⟨"INFO", "production", "svc"⟩,
        [⟨"service", .str "svc"⟩, ⟨"environment", .str "production"⟩],
        1, .error⟩⟩
      [[⟨"component", .str "auth"⟩], [⟨"request_id", .str "req-42a"⟩]]
      .info "started" []
      ⟨.info, "started",
        [⟨"service", .str "svc"⟩, ⟨"environment", .str "production"⟩,
         ⟨"component", .str "auth"⟩, ⟨"request_id", .str "req-42a"⟩],
        false⟩ rfl (by decide)).1
  · exact (service_environment_in_every_entry none ⟨"INFO", "production", "svc"⟩
      ⟨⟨newZapConfig ⟨"INFO", "production", "svc"⟩,
        [⟨"service", .str "svc"⟩, ⟨"environment", .str "production"⟩],
        1, .error⟩⟩
      [[⟨"component", .str "auth"⟩], [⟨"request_id", .str "req-42a"⟩]]
      .info "started" []
      ⟨.info, "started",
        [⟨"service", .str "svc"⟩, ⟨"environment", .str "production"⟩,
         ⟨"component", .str "auth"⟩, ⟨"request_id", .str "req-42a"⟩],
        false⟩ rfl (by decide)).2

/-- Claim C4: explicit global initialization fails exactly when the
underlying engine build fails; on success it installs the new logger,
unconditionally replacing any previously installed one, so after a second
successful initialization every subsequent accessor call returns the second
logger. -/
theorem initGlobal_replace_semantics :
    (∀ (e : Option String) (cfg : Config) (g : GlobalState),
        ((InitGlobal e cfg g).1 = none ↔
          ∃ zl, zapBuild e (newZapConfig cfg) 1 .error = Except.ok zl)) ∧
    (∀ (e : Option String) (cfg : Config) (g : GlobalState) (l : Logger),
        New e cfg = Except.ok l → InitGlobal e cfg g = (none, some l)) ∧
    (∀ (cfg₁ cfg₂ : Config) (g : GlobalState) (l₂ : Logger),
        New none cfg₂ = Except.ok l₂ →
        (InitGlobal none cfg₂ (InitGlobal none cfg₁ g).2).2 = some l₂ ∧
        ∀ (e' : Option String) (n : Nat),
          (GetN e' (InitGlobal none cfg₂ (InitGlobal none cfg₁ g).2).2 n).1
            = some l₂) := by
  refine ⟨?_, ?_, ?_⟩
  · intro e cfg g
    cases e with
    | none => simp [InitGlobal, New, zapBuild]
    | some m => simp [InitGlobal, New, zapBuild]
  · intro e cfg g l h
    simp [InitGlobal, h]
  · intro cfg₁ cfg₂ g l₂ h
    have h2 : InitGlobal none cfg₂ (InitGlobal none cfg₁ g).2
        = (none, some l₂) := by
      simp [InitGlobal, h]
    refine ⟨by rw [h2], ?_⟩
    intro e' n
    rw [h2]
    simp [getN_installed]

/-- Concrete run of claim C4's theorem: initializing with a development
config and then with a production config leaves the production logger
installed, and repeated accessor calls keep returning it. -/
theorem initGlobal_replace_semantics_witness :
    ∃ l₂ : Logger,
      New none ⟨"DEBUG", "production", "b"⟩ = Except.ok l₂ ∧
      (InitGlobal none ⟨"DEBUG", "production", "b"⟩
        (InitGlobal none ⟨"INFO", "development", "a"⟩ none).2).2 = some l₂ ∧
      (GetN none (InitGlobal none ⟨"DEBUG", "production", "b"⟩
        (InitGlobal none ⟨"INFO", "development", "a"⟩ none).2).2 2).1
        = some l₂ := by
  refine ⟨_, rfl, ?_, ?_⟩
  · exact (initGlobal_replace_semantics.2.2 ⟨"INFO", "development", "a"⟩
      ⟨"DEBUG", "production", "b"⟩ none _ rfl).1
  · exact (initGlobal_replace_semantics.2.2 ⟨"INFO", "development", "a"⟩
      ⟨"DEBUG", "production", "b"⟩ none _ rfl).2 none 2

/-- Claim C5: calling the accessor while the global reference is nil builds
a logger from the default configuration (level `INFO`, environment
`development`, the fixed default service name `gath-stack`), installs it,
returns it, and every subsequent accessor call returns that same logger. -/
theorem get_auto_initializes_default :
    ∃ l : Logger,
      New none getDefaultConfig = Except.ok l ∧
      getDefaultConfig = ⟨"INFO", "development", "gath-stack"⟩ ∧
      Get none none = (some l, some l) ∧
      ∀ n, GetN none (some l) n = (some l, some l) :=
  ⟨_, rfl, rfl, rfl, getN_installed none _⟩

/-- Claim C7: deriving a contextual child never mutates the parent: an entry
the parent emits is built from the parent's own field set followed by the
call-site fields, so a field supplied only to the child never appears in it,
and the child's field set is the parent's with the extras appended. -/
theorem withContext_does_not_mutate_parent
    (l : Logger) (fs cf : List Field) (lvl : ZapLevel) (msg : String)
    (ent : Entry) (hlog : l.Log lvl msg cf = some ent) :
    ent.fields = l.toZap.fields ++ cf ∧
    (l.WithContext fs).toZap.fields = l.toZap.fields ++ fs ∧
    ∀ f ∈ fs, f ∉ l.toZap.fields → f ∉ cf → f ∉ ent.fields := by
  have hf := log_some_fields _ _ _ _ _ hlog
  refine ⟨hf, rfl, ?_⟩
  intro f _ hnl hnc hcontra
  rw [hf] at hcontra
  rcases List.mem_append.mp hcontra with h | h
  · exact hnl h
  · exact hnc h

/-- Concrete run of claim C7's theorem: after deriving a child with a
`request_id` field, an entry emitted from the parent does not contain it. -/
theorem withContext_does_not_mutate_parent_witness :
    ∃ (l : Logger) (ent : Entry),
      New none ⟨"INFO", "development", "x"⟩ = Except.ok l ∧
      l.Log .info "m" [] = some ent ∧
      (l.WithContext [⟨"request_id", .str "r"⟩]).toZap.fields
        = l.toZap.fields ++ [⟨"request_id", .str "r"⟩] ∧
      (⟨"request_id", .str "r"⟩ : Field) ∉ ent.fields := by
  refine ⟨⟨⟨newZapConfig ⟨"INFO", "development", "x"⟩,
      [⟨"service", .str "x"⟩, ⟨"environment", .str "development"⟩],
      1, .error⟩⟩,
    ⟨.info, "m",
      [⟨"service", .str "x"⟩, ⟨"environment", .str "development"⟩],
      false⟩, rfl, by decide, ?_, ?_⟩
  · exact (withContext_does_not_mutate_parent
      ⟨⟨newZapConfig ⟨"INFO", "development", "x"⟩,
        [⟨"service", .str "x"⟩, ⟨"environment", .str "development"⟩],
        1, .error⟩⟩
      [⟨"request_id", .str "r"⟩] [] .info "m"
      ⟨.info, "m",
        [⟨"service", .str "x"⟩, ⟨"environment", .str "development"⟩],
        false⟩ (by decide)).2.1
  · exact (withContext_does_not_mutate_parent
      ⟨⟨newZapConfig ⟨"INFO", "development", "x"⟩,
        [⟨"service", .str "x"⟩, ⟨"environment", .str "development"⟩],
        1, .error⟩⟩
      [⟨"request_id", .str "r"⟩] [] .info "m"
      ⟨.info, "m",
        [⟨"service", .str "x"⟩, ⟨"environment", .str "development"⟩],
        false⟩ (by decide)).2.2
      _ (by simp) (by decide) (by decide)

/-- Claim C8: a doubly derived logger emits its fields in append order — the
base logger's fields, then the first derivation's fields, then the second's,
then the call-site fields — with duplicate keys kept, not deduplicated. -/
theorem derive_append_order
    (l : Logger) (a b cf : List Field) (lvl : ZapLevel) (msg : String)
    (ent : Entry)
    (hlog : ((l.WithContext a).WithContext b).Log lvl msg cf = some ent) :
    ent.fields = l.toZap.fields ++ a ++ b ++ cf := by
  have hf := log_some_fields _ _ _ _ _ hlog
  simpa [Logger.WithContext, ZapLogger.With] using hf

/-- Concrete run of claim C8's theorem: deriving twice with the same key
keeps both occurrences, in order, after the inherited fields. -/
theorem derive_append_order_witness :
    ∃ (l : Logger) (ent : Entry),
      New none ⟨"INFO", "development", "x"⟩ = Except.ok l ∧
      ((l.WithContext [⟨"k", .str "1"⟩]).WithContext
          [⟨"k", .str "2"⟩]).Log .info "m" [⟨"k", .str "1"⟩] = some ent ∧
      ent.fields = l.toZap.fields ++ [⟨"k", .str "1"⟩] ++ [⟨"k", .str "2"⟩]
        ++ [⟨"k", .str "1"⟩] ∧
      ent.fields.count (⟨"k", .str "1"⟩ : Field) = 2 := by
  refine ⟨⟨⟨newZapConfig ⟨"INFO", "development", "x"⟩,
      [⟨"service", .str "x"⟩, ⟨"environment", .str "development"⟩],
      1, .error⟩⟩,
    ⟨.info, "m",
      [⟨"service", .str "x"⟩, ⟨"environment", .str "development"⟩,
       ⟨"k", .str "1"⟩, ⟨"k", .str "2"⟩, ⟨"k", .str "1"⟩],
      false⟩, rfl, by decide, ?_, by decide⟩
  exact derive_append_order
    ⟨⟨newZapConfig ⟨"INFO", "development", "x"⟩,
      [⟨"service", .str "x"⟩, ⟨"environment", .str "development"⟩],
      1, .error⟩⟩
    [⟨"k", .str "1"⟩] [⟨"k", .str "2"⟩] [⟨"k", .str "1"⟩] .info "m"
    ⟨.info, "m",
      [⟨"service", .str "x"⟩, ⟨"environment", .str "development"⟩,
       ⟨"k", .str "1"⟩, ⟨"k", .str "2"⟩, ⟨"k", .str "1"⟩],
      false⟩ (by decide)

/-- Claim C9: the resolved minimum-level threshold gates emission — an
emission call produces output exactly when its level is at or above the
threshold; in particular a logger constructed with level `WARN` produces no
output for DEBUG or INFO calls and output for WARN and ERROR calls. -/
theorem min_level_filter
    (e? : Option String) (cfg : Config) (l : Logger)
    (hnew : New e? cfg = .ok l) :
    (∀ (lvl : ZapLevel) (msg : String) (cf : List Field),
        (l.Log lvl msg cf).isSome
          = levelEnabled (resolveZapLevel cfg.Level) lvl) ∧
    (cfg.Level = LevelWarn → ∀ (msg : String) (cf : List Field),
        l.Log .debug msg cf = none ∧
        l.Log .info msg cf = none ∧
        (l.Log .warn msg cf).isSome = true ∧
        (l.Log .error msg cf).isSome = true) := by
  have hz := new_ok_toZap e? cfg l hnew
  have hlevel : l.toZap.config.Level = resolveZapLevel cfg.Level := by
    rw [hz]
    exact newZapConfig_Level cfg
  constructor
  · intro lvl msg cf
    by_cases h : levelEnabled (resolveZapLevel cfg.Level) lvl = true
    · simp [Logger.Log, hlevel, h]
    · simp only [Bool.not_eq_true] at h
      simp [Logger.Log, hlevel, h]
  · intro hW msg cf
    have hwarn : l.toZap.config.Level = ZapLevel.warn := by
      rw [hlevel, hW]
      decide
    refine ⟨?_, ?_, ?_, ?_⟩ <;>
      simp [Logger.Log, hwarn, levelEnabled, ZapLevel.toInt]

/-- Concrete run of claim C9's theorem: a WARN-level development logger
suppresses INFO emission and admits ERROR emission. -/
theorem min_level_filter_witness :
    ∃ l : Logger,
      New none ⟨"WARN", "development", "x"⟩ = Except.ok l ∧
      l.Log .debug "m" [] = none ∧
      l.Log .info "m" [] = none ∧
      (l.Log .warn "m" []).isSome = true ∧
      (l.Log .error "m" []).isSome = true := by
  refine ⟨_, rfl, ?_, ?_, ?_, ?_⟩ <;>
    have h := (min_level_filter none ⟨"WARN", "development", "x"⟩ _ rfl).2
      rfl "m" []
  · exact h.1
  · exact h.2.1
  · exact h.2.2.1
  · exact h.2.2.2

/-- Claim C6: when construction fails inside the global accessor's
implicit-default path, the error is swallowed: the accessor returns the nil
placeholder (its return type carries no error channel), and the global
reference stays nil. -/
theorem get_swallows_build_failure (msg : String) :
    Get (some msg) none = (none, none) := rfl

/-- Claim C10: the environment-based config builder treats a variable set to
the empty string exactly like an unset one — both read back as the empty
string through `os.Getenv` and therefore yield the documented default — so
none of the three produced `Config` fields is ever the empty string. -/
theorem fromEnv_empty_equals_unset (env : String → Option String) :
    ((env "LOG_LEVEL" = none ∨ env "LOG_LEVEL" = some "") →
      (FromEnv env).Level = "INFO") ∧
    ((env "APP_ENV" = none ∨ env "APP_ENV" = some "") →
      (FromEnv env).Environment = "development") ∧
    ((env "APP_NAME" = none ∨ env "APP_NAME" = some "") →
      (FromEnv env).ServiceName = "gath-stack") ∧
    (FromEnv env).Level ≠ "" ∧
    (FromEnv env).Environment ≠ "" ∧
    (FromEnv env).ServiceName ≠ "" := by
  refine ⟨?_, ?_, ?_, ?_, ?_, ?_⟩ <;>
    simp only [FromEnv, getEnv, osGetenv]
  · rintro (h | h) <;> simp [h]
  · rintro (h | h) <;> simp [h]
  · rintro (h | h) <;> simp [h]
  · split <;> simp_all
  · split <;> simp_all
  · split <;> simp_all

/-- Concrete run of claim C10's theorem: with `LOG_LEVEL` set to the empty
string and the other two variables unset, the builder produces the full
default configuration. -/
theorem fromEnv_empty_equals_unset_witness :
    (FromEnv (fun k => if k = "LOG_LEVEL" then some "" else none)).Level
        = "INFO" ∧
    (FromEnv (fun k => if k = "LOG_LEVEL" then some "" else none)).Environment
        = "development" ∧
    (FromEnv (fun k => if k = "LOG_LEVEL" then some "" else none)).ServiceName
        = "gath-stack" := by
  refine ⟨?_, ?_, ?_⟩
  · exact (fromEnv_empty_equals_unset _).1 (Or.inr (by decide))
  · exact (fromEnv_empty_equals_unset _).2.1 (Or.inl (by decide))
  · exact (fromEnv_empty_equals_unset _).2.2.1 (Or.inl (by decide))

end LoggerGath
